import Mathlib

/-!
# Curry.hpp : currying of callables

A model of `ed::curried_function` and of the overload set `ed::curry`.

* A C++ call runs in a program state `σ` (variables, output already
  written) and either returns a value or throws; see `Outcome`.
* An object type is a `VType`: its values together with the value that a
  move leaves behind in the moved-from object. Every parameter of a
  signature is of an object type and taken by value, as in tests.cpp.
* An argument of a call is an expression, `ArgExpr`: a temporary, a variable
  of the program state, or a variable cast to an rvalue. Initialising a
  parameter from a variable copies it; from a variable cast to an rvalue it
  moves from the variable. `std::forward<Arg0>(arg0)` with the parameter type
  `Arg0` of the class is such a cast, `ArgExpr.rvalue`.
* A callable object is a `Closure`: its captured data and its call
  operator, which may change the captured data (the lambdas of
  `curried_function` are `mutable`).
* C++ leaves the order in which the parameters of one call are initialised
  unspecified; `ArgExprs.init` takes them first to last. The theorems relate
  calls through `ArgExprs.init` and do not rest on that order.
-/

namespace ed

universe u v

/-- The exceptions of the program: `ed::invalid_curry`,
`std::bad_function_call`, and whatever else a user's callable throws. -/
inductive Exn
  | invalid_curry
  | bad_function_call
  | other (code : Nat)
  deriving DecidableEq

/-- The text returned by `invalid_curry::what()`. -/
def invalid_curry.what : String := "Cannot curry function with 0 arguments"

/-- An object type: its values, and the value left in an object of the type
after it was moved from (the identity for `int` and every other type whose
move is a copy). -/
structure VType where
  carrier : Type
  moved_from : carrier → carrier

/-- The values of the parameters of a signature `Ret(As...)`, first
parameter first. -/
def Args : List VType → Type
  | [] => Unit
  | A :: As => A.carrier × Args As

/-- How a call ends: the value returned or the exception thrown, and the
program state it leaves. -/
abbrev Outcome (σ Ret : Type) : Type := Except Exn Ret × σ

/-- A plain function `Ret(*)(As...)`: its body, run on the values of its
parameters. -/
structure function_pointer (σ Ret : Type) (As : List VType) where
  run : Args As → σ → Outcome σ Ret

/-- A `std::reference_wrapper<A>`: an alias of a variable of the program
state, which can be read and assigned through it. -/
structure std.reference_wrapper (σ : Type) (A : VType) where
  get : σ → A.carrier
  set : A.carrier → σ → σ
  get_set : ∀ (a : A.carrier) (w : σ), get (set a w) = a

/-- An argument expression of type `A`: a temporary holding `a`; the variable
that `r` aliases, as an lvalue (also a `std::reference_wrapper` of it, which
converts to that lvalue); or that variable cast to an rvalue. -/
inductive ArgExpr (σ : Type) (A : VType)
  | prvalue (a : A.carrier)
  | lvalue (r : std.reference_wrapper σ A)
  | xvalue (r : std.reference_wrapper σ A)

/-- The cast `std::forward<A>(e)` for an object type `A`: every expression
becomes an rvalue. -/
def ArgExpr.rvalue {σ : Type} {A : VType} : ArgExpr σ A → ArgExpr σ A
  | ArgExpr.prvalue a => ArgExpr.prvalue a
  | ArgExpr.lvalue r => ArgExpr.xvalue r
  | ArgExpr.xvalue r => ArgExpr.xvalue r

/-- The initialisation of a parameter of type `A`, taken by value, from an
argument expression: the value the parameter gets and the program state
after it. A temporary gives its value; an lvalue is copied; an rvalue of a
variable is moved from, which leaves `moved_from` in the variable. -/
def ArgExpr.init {σ : Type} {A : VType} : ArgExpr σ A → σ → A.carrier × σ
  | ArgExpr.prvalue a, w => (a, w)
  | ArgExpr.lvalue r, w => (r.get w, w)
  | ArgExpr.xvalue r, w => (r.get w, r.set (A.moved_from (r.get w)) w)

/-- The argument expressions of a call with the signature `Ret(As...)`. -/
def ArgExprs (σ : Type) : List VType → Type
  | [] => Unit
  | A :: As => ArgExpr σ A × ArgExprs σ As

/-- Temporaries holding the given values. -/
def ArgExprs.prvalues {σ : Type} : {As : List VType} → Args As → ArgExprs σ As
  | [], _ => ()
  | _ :: _, args => (ArgExpr.prvalue args.1, ArgExprs.prvalues args.2)

/-- The casts `std::forward<Arg0>(arg0), std::forward<Args>(args)...`. -/
def ArgExprs.rvalue {σ : Type} : {As : List VType} → ArgExprs σ As → ArgExprs σ As
  | [], _ => ()
  | _ :: _, es => (es.1.rvalue, ArgExprs.rvalue es.2)

/-- The initialisation of the parameters of a call, all taken by value, from
its argument expressions: their values and the program state after it. -/
def ArgExprs.init {σ : Type} : {As : List VType} → ArgExprs σ As → σ → Args As × σ
  | [], _, w => ((), w)
  | _ :: _, es, w =>
    ((((es.1.init w).1), (ArgExprs.init es.2 (es.1.init w).2).1),
      (ArgExprs.init es.2 (es.1.init w).2).2)

/-- A callable object: the data it captured and its call operator, which
takes the argument expressions of the call and returns the outcome of the
call and the captured data after it. -/
structure Closure (σ Ret : Type) (As : List VType) : Type 1 where
  Cap : Type
  cap : Cap
  body : Cap → ArgExprs σ As → σ → Outcome σ Ret × Cap

/-- A `std::function<Ret(As...)>`: empty (`nullptr`) or holding a callable. -/
structure std.function (σ Ret : Type) (As : List VType) : Type 1 where
  target : Option (Closure σ Ret As)

/-- The call of a callable object: the outcome, and the object after the
call, with the captured data its body left. -/
def Closure.call {σ Ret : Type} {As : List VType} (c : Closure σ Ret As)
    (es : ArgExprs σ As) (w : σ) : Outcome σ Ret × Closure σ Ret As :=
  let r := c.body c.cap es w
  (r.1, { c with cap := r.2 })

/-- The `operator()(As... args)` of `std::function`: its parameters are
taken by value and initialised from the argument expressions; then
`std::bad_function_call` when empty, otherwise the call of the target with
the parameters as rvalues. Returns the object after the call too. -/
def std.function.call {σ Ret : Type} {As : List VType} (f : std.function σ Ret As)
    (es : ArgExprs σ As) (w : σ) : Outcome σ Ret × std.function σ Ret As :=
  match f.target with
  | none => ((Except.error Exn.bad_function_call, (es.init w).2), f)
  | some c =>
    ((c.call (ArgExprs.prvalues (es.init w).1) (es.init w).2).1,
      ⟨some (c.call (ArgExprs.prvalues (es.init w).1) (es.init w).2).2⟩)

/-- The `Arg1` object a constructor of `curried_function` captures as `ar`:
a copy of a value, or a `std::reference_wrapper`. -/
inductive Bound (σ : Type) (A : VType)
  | value (a : A.carrier)
  | reference (r : std.reference_wrapper σ A)

/-- The argument expression `std::forward<decltype(ar)>(ar)`: an rvalue of
the captured value, which is a temporary for the program state (the capture
itself is left as `Bound.after` says); or the captured
`std::reference_wrapper`, which converts to an lvalue of the variable. -/
def Bound.expr {σ : Type} {A : VType} : Bound σ A → ArgExpr σ A
  | Bound.value a => ArgExpr.prvalue a
  | Bound.reference r => ArgExpr.lvalue r

/-- The capture `ar` after it was forwarded as an rvalue: a captured value is
moved from, a `std::reference_wrapper` is unchanged. -/
def Bound.after {σ : Type} {A : VType} : Bound σ A → Bound σ A
  | Bound.value a => Bound.value (A.moved_from a)
  | Bound.reference r => Bound.reference r

/-- The gate `std::is_invocable_v<Func, As...>` with result `Ret`: objects of
type `Func` can be called with `As...`; `closure` is the object seen as a
captured state with a call operator. -/
class is_invocable (Func : Type u) (σ Ret : outParam Type) (As : outParam (List VType)) where
  closure : Func → Closure σ Ret As

/-- The class template `curried_function<Ret(As...)>`; its only member is
`func`. The specialisation `curried_function<Ret()>` is the case `As = []`. -/
structure curried_function (σ Ret : Type) (As : List VType) : Type 1 where
  func : std.function σ Ret As

/-- The constructor `curried_function() noexcept : func(nullptr)`. -/
def curried_function.ctor_default {σ Ret : Type} {As : List VType} :
    curried_function σ Ret As :=
  ⟨⟨none⟩⟩

/-- The constructor `curried_function(Func fn, const Arg1& arg)`: `func` holds
the lambda `[fn, ar = arg](auto&& arg0, auto&&... args) mutable`, whose body
is `fn(std::forward<decltype(ar)>(ar), std::forward<Arg0>(arg0),
std::forward<Args>(args)...)`. For `As = []` it is the constructor of
`curried_function<Ret()>`, whose lambda takes no argument. The capture `ar` is
recorded as moved from after every call; when `fn` is an empty wrapper, which
throws before anything is moved, no later call reads `ar`. -/
def curried_function.ctor {Func : Type u} {σ Ret : Type} {A : VType} {As : List VType}
    [is_invocable Func σ Ret (A :: As)] (fn : Func) (arg : Bound σ A) :
    curried_function σ Ret As :=
  let c : Closure σ Ret (A :: As) := is_invocable.closure fn
  ⟨⟨some
    { Cap := c.Cap × Bound σ A
      cap := (c.cap, arg)
      body := fun s es w =>
        let r := c.body s.1 (s.2.expr, es.rvalue) w
        (r.1, (r.2, s.2.after)) }⟩⟩

/-- The `operator()(OpArg0&& arg0, OpArgs&&... args)` of `curried_function`:
`if (func) return func(std::forward<Arg0>(arg0), std::forward<Args>(args)...);`
`throw std::bad_function_call();`. For `curried_function<Ret()>` it is
`if (func) return func();`. Returns the wrapper after the call too. -/
def curried_function.call {σ Ret : Type} {As : List VType} (self : curried_function σ Ret As)
    (es : ArgExprs σ As) (w : σ) : Outcome σ Ret × curried_function σ Ret As :=
  if self.func.target.isSome then
    let r := self.func.call es.rvalue w
    (r.1, ⟨r.2⟩)
  else
    ((Except.error Exn.bad_function_call, w), self)

/-- The conversion `operator std::function<Ret(As...)>()`: `return func;`. -/
def curried_function.to_function {σ Ret : Type} {As : List VType}
    (self : curried_function σ Ret As) : std.function σ Ret As :=
  self.func

/-- A callable that throws `std::bad_function_call` on every call, before
anything is done with its arguments: what a call of an empty wrapper does. -/
def Closure.bad_call {σ Ret : Type} {As : List VType} : Closure σ Ret As :=
  { Cap := Unit, cap := (), body := fun _ _ w => ((Except.error Exn.bad_function_call, w), ()) }

/-- A callable called with every argument cast to an rvalue first: what the
`operator()` of a wrapper does with `func`. -/
def Closure.forwarding {σ Ret : Type} {As : List VType} (c : Closure σ Ret As) :
    Closure σ Ret As :=
  { Cap := c.Cap, cap := c.cap, body := fun s es w => c.body s es.rvalue w }

/-- A plain function is invocable; it captures nothing, and its parameters
are initialised from the argument expressions. -/
instance function_pointer.invocable {σ Ret : Type} {As : List VType} :
    is_invocable (function_pointer σ Ret As) σ Ret As where
  closure fn :=
    { Cap := Unit, cap := (), body := fun _ es w => (fn.run (es.init w).1 (es.init w).2, ()) }

/-- A callable object is invocable. -/
instance Closure.invocable {σ Ret : Type} {As : List VType} :
    is_invocable (Closure σ Ret As) σ Ret As where
  closure c := c

/-- A `std::function` is invocable through `std.function.call`. -/
instance std.function.invocable {σ Ret : Type} {As : List VType} :
    is_invocable (std.function σ Ret As) σ Ret As where
  closure f :=
    match f.target with
    | none =>
      { Cap := Unit
        cap := ()
        body := fun _ es w => ((Except.error Exn.bad_function_call, (es.init w).2), ()) }
    | some c =>
      { Cap := c.Cap
        cap := c.cap
        body := fun s es w => c.body s (ArgExprs.prvalues (es.init w).1) (es.init w).2 }

/-- A `curried_function` is invocable through `curried_function.call`. -/
instance curried_function.invocable {σ Ret : Type} {As : List VType} :
    is_invocable (curried_function σ Ret As) σ Ret As where
  closure cF :=
    if cF.func.target.isSome then Closure.forwarding (is_invocable.closure cF.func)
    else Closure.bad_call
/-- The member `curry()` of `curried_function<Ret()>`:
`throw invalid_curry();`. It is a non-const member of return type `void`; the
second component is the wrapper after the call. -/
def curried_function.curry_nullary {σ Ret : Type} (self : curried_function σ Ret []) :
    Except Exn Unit × curried_function σ Ret [] :=
  (Except.error Exn.invalid_curry, self)

/-- The member `curry(T&& onValue)` of `curried_function<Ret(Arg0, Args...)>`:
`return { func, std::forward<T>(onValue) };`. It is a non-const member; the
second component is the wrapper after the call. -/
def curried_function.curry {σ Ret : Type} {A : VType} {As : List VType}
    (self : curried_function σ Ret (A :: As)) (onValue : Bound σ A) :
    curried_function σ Ret As × curried_function σ Ret (A :: As) :=
  (curried_function.ctor self.func onValue, self)

/-! ## The free functions `ed::curry`

One definition per overload; an overload for one argument and its twin for
more than one (`sizeof...(Args) > 0`) have the same body and are one
definition here, with `As = []` for the first. -/

/-- `curry(const curried_function<Ret()>&, const T&)`: `throw invalid_curry();`. -/
def curry_curried_nullary {σ Ret : Type} {T : Type v} (_cF : curried_function σ Ret [])
    (_arg : T) : Except Exn Unit :=
  Except.error Exn.invalid_curry

/-- `curry(const std::function<Ret()>&, const T&)`: `throw invalid_curry();`. -/
def curry_function_nullary {σ Ret : Type} {T : Type v} (_cF : std.function σ Ret [])
    (_arg : T) : Except Exn Unit :=
  Except.error Exn.invalid_curry

/-- `curry(Ret(*)(), const T&)`: `throw invalid_curry();`. -/
def curry_pointer_nullary {σ Ret : Type} {T : Type v} (_fn : function_pointer σ Ret [])
    (_arg : T) : Except Exn Unit :=
  Except.error Exn.invalid_curry

/-- `curry(Func, const T&)`, enabled when `std::is_invocable_v<Func>`:
`throw invalid_curry();`. -/
def curry_callable_nullary {Func : Type u} {σ Ret : Type} {T : Type v}
    [is_invocable Func σ Ret []] (_fn : Func) (_arg : T) : Except Exn Unit :=
  Except.error Exn.invalid_curry

/-- `curry(const curried_function<Ret(Arg1, Args...)>& cF, const Arg1& arg)`:
`return { cF, arg };`. -/
def curry_curried {σ Ret : Type} {A : VType} {As : List VType}
    (cF : curried_function σ Ret (A :: As)) (arg : A.carrier) : curried_function σ Ret As :=
  curried_function.ctor cF (Bound.value arg)

/-- `curry(const curried_function<Ret(Arg1, Args...)>& cF,
std::reference_wrapper<Arg1> arg)`: `return { cF, arg };`. -/
def curry_curried_ref {σ Ret : Type} {A : VType} {As : List VType}
    (cF : curried_function σ Ret (A :: As)) (arg : std.reference_wrapper σ A) :
    curried_function σ Ret As :=
  curried_function.ctor cF (Bound.reference arg)

/-- `curry(const std::function<Ret(Arg1, Args...)>& cF, const Arg1& arg)`:
`return { cF, arg };`. -/
def curry_function {σ Ret : Type} {A : VType} {As : List VType}
    (cF : std.function σ Ret (A :: As)) (arg : A.carrier) : curried_function σ Ret As :=
  curried_function.ctor cF (Bound.value arg)

/-- `curry(const std::function<Ret(Arg1, Args...)>& cF,
std::reference_wrapper<Arg1> w)`: `return { cF, w };`. -/
def curry_function_ref {σ Ret : Type} {A : VType} {As : List VType}
    (cF : std.function σ Ret (A :: As)) (w : std.reference_wrapper σ A) :
    curried_function σ Ret As :=
  curried_function.ctor cF (Bound.reference w)

/-- `curry(Ret(*fn)(Arg1, Args...), const Arg1& arg)`: `return { fn, arg };`. -/
def curry_pointer {σ Ret : Type} {A : VType} {As : List VType}
    (fn : function_pointer σ Ret (A :: As)) (arg : A.carrier) : curried_function σ Ret As :=
  curried_function.ctor fn (Bound.value arg)

/-- `curry(Ret(*fn)(Arg1, Args...), std::reference_wrapper<Arg1> w)`:
`return { fn, w };`. -/
def curry_pointer_ref {σ Ret : Type} {A : VType} {As : List VType}
    (fn : function_pointer σ Ret (A :: As)) (w : std.reference_wrapper σ A) :
    curried_function σ Ret As :=
  curried_function.ctor fn (Bound.reference w)

/-- The targets the overloads for one or more arguments accept: a plain
function, a `std::function`, a `curried_function`. -/
inductive Target (σ Ret : Type) (As : List VType) : Type 1
  | pointer (fn : function_pointer σ Ret As)
  | function (cF : std.function σ Ret As)
  | curried (cF : curried_function σ Ret As)

/-- The call expression `target(es...)`: its outcome and the target after
the call. The parameters of a plain function are initialised from the
argument expressions, then its body runs. -/
def Target.call {σ Ret : Type} {As : List VType} :
    Target σ Ret As → ArgExprs σ As → σ → Outcome σ Ret × Target σ Ret As
  | Target.pointer fn, es, w => (fn.run (es.init w).1 (es.init w).2, Target.pointer fn)
  | Target.function cF, es, w => ((cF.call es w).1, Target.function (cF.call es w).2)
  | Target.curried cF, es, w => ((cF.call es w).1, Target.curried (cF.call es w).2)

/-- The call expression `ed::curry(target, arg)` for a target of one or more
arguments: overload resolution picks the overload of the target's shape and
of the argument's kind (a value, or a `std::reference_wrapper`). -/
def curry {σ Ret : Type} {A : VType} {As : List VType} (target : Target σ Ret (A :: As))
    (arg : Bound σ A) : Except Exn (curried_function σ Ret As) :=
  match target, arg with
  | Target.pointer fn, Bound.value a => Except.ok (curry_pointer fn a)
  | Target.pointer fn, Bound.reference r => Except.ok (curry_pointer_ref fn r)
  | Target.function cF, Bound.value a => Except.ok (curry_function cF a)
  | Target.function cF, Bound.reference r => Except.ok (curry_function_ref cF r)
  | Target.curried cF, Bound.value a => Except.ok (curry_curried cF a)
  | Target.curried cF, Bound.reference r => Except.ok (curry_curried_ref cF r)

/-- The targets of no argument that `ed::curry` accepts: the three shapes
above, and any other object callable without arguments. -/
inductive NullaryTarget (σ Ret : Type) : Type 1
  | pointer (fn : function_pointer σ Ret [])
  | function (cF : std.function σ Ret [])
  | curried (cF : curried_function σ Ret [])
  | callable (fn : Closure σ Ret [])

/-- The call expression `ed::curry(target, arg)` for a target of no
argument and an argument of any type `T`. -/
def curry_nullary {σ Ret : Type} {T : Type v} (target : NullaryTarget σ Ret) (arg : T) :
    Except Exn Unit :=
  match target with
  | NullaryTarget.pointer fn => curry_pointer_nullary fn arg
  | NullaryTarget.function cF => curry_function_nullary cF arg
  | NullaryTarget.curried cF => curry_curried_nullary cF arg
  | NullaryTarget.callable fn => curry_callable_nullary fn arg

/-- The expression `curry(... curry(curry(target, a1), a2) ..., an)`: one
`ed::curry` per argument of the target, each argument bound by value. -/
def curry_all {σ Ret : Type} : (As : List VType) → (A : VType) → Target σ Ret (A :: As) →
    Args (A :: As) → Except Exn (curried_function σ Ret [])
  | [], _, target, args => curry target (Bound.value args.1)
  | B :: Bs, _, target, args =>
    match curry target (Bound.value args.1) with
    | Except.ok cF => curry_all Bs B (Target.curried cF) args.2
    | Except.error e => Except.error e

/-- The callable object a target is when a lambda of `curried_function`
captures it as `fn`. -/
def Target.closure {σ Ret : Type} {As : List VType} : Target σ Ret As → Closure σ Ret As
  | Target.pointer fn => is_invocable.closure fn
  | Target.function cF => is_invocable.closure cF
  | Target.curried cF => is_invocable.closure cF

/-- The body of the callable never throws `e`, whatever its captured data,
its arguments and the program state. -/
def Closure.never_throws {σ Ret : Type} {As : List VType} (c : Closure σ Ret As) (e : Exn) :
    Prop :=
  ∀ (s : c.Cap) (es : ArgExprs σ As) (w : σ), (c.body s es w).1.1 ≠ Except.error e

/-- The body of the callable throws `e` on every call, whatever its captured
data, its arguments and the program state. -/
def Closure.always_throws {σ Ret : Type} {As : List VType} (c : Closure σ Ret As) (e : Exn) :
    Prop :=
  ∀ (s : c.Cap) (es : ArgExprs σ As) (w : σ), (c.body s es w).1.1 = Except.error e

/-- Whether the target holds something to call, the test `if (func)` of a
wrapper and of a `std::function`; a plain function always does. -/
def Target.holds_callable {σ Ret : Type} {As : List VType} : Target σ Ret As → Bool
  | Target.pointer _ => true
  | Target.function cF => cF.target.isSome
  | Target.curried cF => cF.func.target.isSome

/-- The statement `ed::curry(w, x);` on a wrapper variable `w` of one or more
remaining arguments: what the call gives, and `w` after it. The overloads
take `w` as `const curried_function<...>& cF` and copy it into the parameter
`Func fn` of the constructor. -/
def curry_statement {σ Ret : Type} {A : VType} {As : List VType}
    (w : curried_function σ Ret (A :: As)) (x : Bound σ A) :
    Except Exn (curried_function σ Ret As) × curried_function σ Ret (A :: As) :=
  (curry (Target.curried w) x, w)

/-- The statement `ed::curry(w, x);` on a wrapper variable `w` of no remaining
argument: the exception it throws, and `w` after it. The overload takes `w`
as `const curried_function<Ret()>&`. -/
def curry_nullary_statement {σ Ret : Type} {T : Type v} (w : curried_function σ Ret [])
    (x : T) : Except Exn Unit × curried_function σ Ret [] :=
  (curry_nullary (NullaryTarget.curried w) x, w)

/-! ## The test program (tests.cpp) -/

/-- The type `int`; a move of an `int` is a copy. -/
abbrev int : VType := ⟨Int, id⟩

/-- The state of the test program: the variable `_t` and the lines written
to `std::cout`, each line the list of the numbers printed. -/
structure TestState where
  _t : Int
  cout : List (List Int)
  deriving DecidableEq

/-- `int func_0args() { return 0; }` -/
def func_0args : function_pointer TestState Int [] :=
  ⟨fun _ w => (Except.ok 0, w)⟩

/-- `int func_1args(int a)`: prints `a`, returns 0. -/
def func_1args : function_pointer TestState Int [int] :=
  ⟨fun args w => (Except.ok 0, { w with cout := w.cout ++ [[args.1]] })⟩

/-- `int func_2args(int a, int b)`: prints `a b`, returns 0. -/
def func_2args : function_pointer TestState Int [int, int] :=
  ⟨fun args w => (Except.ok 0, { w with cout := w.cout ++ [[args.1, args.2.1]] })⟩

/-- `int func_3args(int a, int b, int c)`: prints `a b c`, returns 0. -/
def func_3args : function_pointer TestState Int [int, int, int] :=
  ⟨fun args w =>
    (Except.ok 0, { w with cout := w.cout ++ [[args.1, args.2.1, args.2.2.1]] })⟩

/-- `std::ref(_t)`: the alias of the variable `_t`. -/
def ref_t : std.reference_wrapper TestState int :=
  { get := fun w => w._t
    set := fun a w => { w with _t := a }
    get_set := fun _ _ => rfl }

/-- The block `with reference` of `runTestsCurried`, without its two `try`
statements: the lines it writes to `std::cout`, from a state where nothing
was written. -/
def runTestsCurried_reference : List (List Int) :=
  -- int _t = 6; auto _wrap = std::ref(_t);
  let w : TestState := ⟨6, []⟩
  let curried1 : curried_function TestState Int [int] :=
    curried_function.ctor func_2args (Bound.reference ref_t)
  let curried2 : curried_function TestState Int [int, int] :=
    curried_function.ctor func_3args (Bound.reference ref_t)
  -- auto _1 = curried1.curry(_t - 2); _1 = ed::curry(curried1, _t - 1);
  let m := curried1.curry (Bound.value (ref_t.get w - 2))
  let curried1 := m.2
  let _1 := curry_curried curried1 (ref_t.get w - 1)
  -- _wrap.get() = 2; _1();
  let w := ref_t.set 2 w
  let w := (_1.call () w).1.2
  -- auto _2 = curried2.curry(_t + 3); _1 = _2.curry(_t + 8); _1 = ed::curry(_2, _t + 2);
  let m := curried2.curry (Bound.value (ref_t.get w + 3))
  let _2 := m.1
  let curried2 := m.2
  let m := _2.curry (Bound.value (ref_t.get w + 8))
  let _2 := m.2
  let _1 := curry_curried _2 (ref_t.get w + 2)
  -- _wrap.get() = 7; _2(9); _1();
  let w := ref_t.set 7 w
  let r := _2.call (ArgExpr.prvalue 9, ()) w
  let w := r.1.2
  let w := (_1.call () w).1.2
  -- ed::curry(ed::curry(curried2, _t - 4), _wrap)();
  let w := ((curry_curried_ref (curry_curried curried2 (ref_t.get w - 4)) ref_t).call () w).1.2
  -- _t = 8; ed::curry(ed::curry(curried2, std::ref(_t)), ed::curry(curried1, _t + 1)())();
  let w := ref_t.set 8 w
  let inner := (curry_curried curried1 (ref_t.get w + 1)).call () w
  let w := inner.1.2
  match inner.1.1 with
  | Except.ok ret => ((curry_curried (curry_curried_ref curried2 ref_t) ret).call () w).1.2.cout
  | Except.error _ => w.cout

/-- The block `with values` of `runTestsCurried`, without its two `try`
statements: the lines it writes to `std::cout`. -/
def runTestsCurried_values : List (List Int) :=
  let w : TestState := ⟨0, []⟩
  let curried1 : curried_function TestState Int [int] :=
    curried_function.ctor func_2args (Bound.value 0)
  let curried2 : curried_function TestState Int [int, int] :=
    curried_function.ctor func_3args (Bound.value 0)
  -- auto _1 = curried1.curry(4); _1 = ed::curry(curried1, 5); _1();
  let curried1 := (curried1.curry (Bound.value 4)).2
  let _1 := curry_curried curried1 5
  let w := (_1.call () w).1.2
  -- auto _2 = curried2.curry(7); _1 = _2.curry(8); _1 = ed::curry(_2, 9); _2(9); _1();
  let m := curried2.curry (Bound.value 7)
  let _2 := m.1
  let curried2 := m.2
  let _2 := (_2.curry (Bound.value 8)).2
  let _1 := curry_curried _2 9
  let r := _2.call (ArgExpr.prvalue 9, ()) w
  let w := r.1.2
  let w := (_1.call () w).1.2
  -- ed::curry(ed::curry(curried2, 2), 3)();
  let w := ((curry_curried (curry_curried curried2 2) 3).call () w).1.2
  -- ed::curry(ed::curry(curried2, 6), ed::curry(curried1, 5)())();
  let inner := (curry_curried curried1 5).call () w
  let w := inner.1.2
  match inner.1.1 with
  | Except.ok ret => ((curry_curried (curry_curried curried2 6) ret).call () w).1.2.cout
  | Except.error _ => w.cout

/-- Continue with the value of a call expression, or rethrow its exception. -/
def and_then {α : Type u} {β : Type v} (x : Except Exn α) (k : α → Except Exn β) :
    Except Exn β :=
  match x with
  | Except.ok a => k a
  | Except.error e => Except.error e

/-- The function template `runTests(f0, f1, f2)`, without its `try`
statements on `f0`: the lines it writes to `std::cout`, for `f1` and `f2` of
any of the shapes `ed::curry` accepts. -/
def runTests {Ret : Type} (f1 : Target TestState Ret [int])
    (f2 : Target TestState Ret [int, int]) : Except Exn (List (List Int)) :=
  let w : TestState := ⟨0, []⟩
  -- auto _1 = ed::curry(f1, 0); auto _2 = ed::curry(f2, 0); _1(); _2(1);
  and_then (curry f1 (Bound.value 0)) fun _1 =>
  and_then (curry f2 (Bound.value 0)) fun _2 =>
  let w := (_1.call () w).1.2
  let w := (_2.call (ArgExpr.prvalue 1, ()) w).1.2
  -- int _t = 2; auto _11 = ed::curry(f1, _t); auto _12 = ed::curry(f2, _t);
  let w := ref_t.set 2 w
  and_then (curry f1 (Bound.value (ref_t.get w))) fun _11 =>
  and_then (curry f2 (Bound.value (ref_t.get w))) fun _12 =>
  -- _t = 3; _11(); _12(3);
  let w := ref_t.set 3 w
  let w := (_11.call () w).1.2
  let w := (_12.call (ArgExpr.prvalue 3, ()) w).1.2
  -- auto _21 = ed::curry(f1, std::ref(_t)); auto _22 = ed::curry(f2, std::ref(_t));
  and_then (curry f1 (Bound.reference ref_t)) fun _21 =>
  and_then (curry f2 (Bound.reference ref_t)) fun _22 =>
  -- _t = 4; _21(); _t = 5; _22(5);
  let w := ref_t.set 4 w
  let w := (_21.call () w).1.2
  let w := ref_t.set 5 w
  let w := (_22.call (ArgExpr.prvalue 5, ()) w).1.2
  -- auto _wrap = std::ref(_t); auto _31 = ed::curry(f1, _wrap); auto _32 = ed::curry(f2, _wrap);
  and_then (curry f1 (Bound.reference ref_t)) fun _31 =>
  and_then (curry f2 (Bound.reference ref_t)) fun _32 =>
  -- _wrap.get() = 6; _31(); _wrap.get() = 7; _32(8);
  let w := ref_t.set 6 w
  let w := (_31.call () w).1.2
  let w := ref_t.set 7 w
  let w := (_32.call (ArgExpr.prvalue 8, ()) w).1.2
  Except.ok w.cout

/-- `std::function<void(int)> fn1args = [](int a) { std::cout << a; }`: the
lambda captures nothing and takes its parameter by value, as a plain
function does. -/
def fn1args : std.function TestState Unit [int] :=
  ⟨some (is_invocable.closure
    (⟨fun args w => (Except.ok (), { w with cout := w.cout ++ [[args.1]] })⟩ :
      function_pointer TestState Unit [int]))⟩

/-- `std::function<void(int, int)> fn2args`
`= [](int a, int b) { std::cout << a << " " << b; }`. -/
def fn2args : std.function TestState Unit [int, int] :=
  ⟨some (is_invocable.closure
    (⟨fun args w => (Except.ok (), { w with cout := w.cout ++ [[args.1, args.2.1]] })⟩ :
      function_pointer TestState Unit [int, int]))⟩

/-- The type `std::vector<int>`; a moved-from vector is empty. -/
abbrev vector_int : VType := ⟨List Int, fun _ => []⟩

/-- A pure function to bind a vector to:
`int size_of(std::vector<int> v) { return (int)v.size(); }`. -/
def size_of : function_pointer TestState Int [vector_int] :=
  ⟨fun args w => (Except.ok (args.1.length : Int), w)⟩

/-! ## A program with a variable of class type -/

/-- A program state with the variables `int n` and `std::vector<int> v`. -/
structure VecState where
  n : Int
  v : List Int
  deriving DecidableEq

/-- The variable `v`, and `std::ref(v)`. -/
def ref_v : std.reference_wrapper VecState vector_int :=
  { get := fun w => w.v
    set := fun a w => { w with v := a }
    get_set := fun _ _ => rfl }

/-- The variable `n`. -/
def ref_n : std.reference_wrapper VecState int :=
  { get := fun w => w.n
    set := fun a w => { w with n := a }
    get_set := fun _ _ => rfl }

/-- A pure function:
`int size_plus(int a, std::vector<int> x) { return a + (int)x.size(); }`. -/
def size_plus : function_pointer VecState Int [int, vector_int] :=
  ⟨fun args w => (Except.ok (args.1 + (args.2.1.length : Int)), w)⟩

/-- A pure function: `int sizes(int a, std::vector<int> x, std::vector<int> y)`
`{ return a + (int)x.size() + (int)y.size(); }`. -/
def sizes : function_pointer VecState Int [int, vector_int, vector_int] :=
  ⟨fun args w =>
    (Except.ok (args.1 + (args.2.1.length : Int) + (args.2.2.1.length : Int)), w)⟩

/-! ## Argument expressions -/

/-- Casting temporaries to rvalues changes nothing. -/
theorem prvalues_rvalue {σ : Type} : ∀ (As : List VType) (args : Args As),
    (ArgExprs.prvalues args : ArgExprs σ As).rvalue = ArgExprs.prvalues args
  | [], _ => rfl
  | _ :: As, args => by
    show (ArgExpr.prvalue args.1, (ArgExprs.prvalues args.2 : ArgExprs σ As).rvalue)
      = (ArgExpr.prvalue args.1, ArgExprs.prvalues args.2)
    rw [prvalues_rvalue As args.2]

/-- Parameters initialised from temporaries get their values, and the program
state is as it was. -/
theorem prvalues_init {σ : Type} : ∀ (As : List VType) (args : Args As) (w : σ),
    (ArgExprs.prvalues args : ArgExprs σ As).init w = (args, w)
  | [], _, _ => rfl
  | _ :: As, args, w => by
    show ((args.1, ((ArgExprs.prvalues args.2 : ArgExprs σ As).init w).1),
      ((ArgExprs.prvalues args.2 : ArgExprs σ As).init w).2) = (args, w)
    rw [prvalues_init As args.2 w]
    rfl

/-! ## Calls of captured callables -/

/-- A captured `std::function` is called as `std.function.call` calls it. -/
theorem std_function_closure_call {σ Ret : Type} {As : List VType} (f : std.function σ Ret As)
    (es : ArgExprs σ As) (w : σ) :
    (is_invocable.closure f : Closure σ Ret As).call es w
      = ((f.call es w).1, is_invocable.closure (f.call es w).2) := by
  obtain ⟨t⟩ := f
  cases t <;> rfl

/-- A captured `curried_function` is called as `curried_function.call` calls it. -/
theorem curried_function_closure_call {σ Ret : Type} {As : List VType}
    (cF : curried_function σ Ret As) (es : ArgExprs σ As) (w : σ) :
    (is_invocable.closure cF : Closure σ Ret As).call es w
      = ((cF.call es w).1, is_invocable.closure (cF.call es w).2) := by
  obtain ⟨⟨t⟩⟩ := cF
  cases t <;> rfl

/-- A captured target of any shape is called as `Target.call` calls it. -/
theorem target_closure_call {σ Ret : Type} {As : List VType} (t : Target σ Ret As)
    (es : ArgExprs σ As) (w : σ) :
    t.closure.call es w = ((t.call es w).1, (t.call es w).2.closure) := by
  cases t with
  | pointer fn => rfl
  | function cF => exact std_function_closure_call cF es w
  | curried cF => exact curried_function_closure_call cF es w

/-- A call of a constructed wrapper: the arguments are cast to rvalues and
the parameters of `func` are initialised from them; then the captured `fn` is
called with the bound argument first and those parameters after it. The
wrapper after the call holds `fn` and `ar` as that call left them. -/
theorem curried_function_ctor_call {Func : Type u} {σ Ret : Type} {A : VType}
    {As : List VType} [is_invocable Func σ Ret (A :: As)] (fn : Func) (arg : Bound σ A)
    (es : ArgExprs σ As) (w : σ) :
    (curried_function.ctor fn arg).call es w
      = (((is_invocable.closure fn : Closure σ Ret (A :: As)).call
            (arg.expr, ArgExprs.prvalues (es.rvalue.init w).1) (es.rvalue.init w).2).1,
         curried_function.ctor
           ((is_invocable.closure fn : Closure σ Ret (A :: As)).call
             (arg.expr, ArgExprs.prvalues (es.rvalue.init w).1) (es.rvalue.init w).2).2
           arg.after) := by
  have h := @prvalues_rvalue σ As (es.rvalue.init w).1
  simp only [curried_function.call, curried_function.ctor, std.function.call, Closure.call,
    Option.isSome_some, if_true, h]
  rfl

/-- Every overload for one or more arguments constructs the wrapper from the
target and the argument. -/
theorem curry_eq_ctor {σ Ret : Type} {A : VType} {As : List VType}
    (t : Target σ Ret (A :: As)) (arg : Bound σ A) :
    curry t arg = Except.ok (curried_function.ctor t.closure arg) := by
  cases t <;> cases arg <;> rfl

/-- The outcome of calling `ctor target arg`: that of the target called with
the bound argument and then the parameters that the supplied arguments,
cast to rvalues, initialised. -/
theorem ctor_target_call {σ Ret : Type} {A : VType} {As : List VType}
    (t : Target σ Ret (A :: As)) (arg : Bound σ A) (es : ArgExprs σ As) (w : σ) :
    ((curried_function.ctor t.closure arg).call es w).1
      = (t.call (arg.expr, ArgExprs.prvalues (es.rvalue.init w).1) (es.rvalue.init w).2).1 := by
  rw [curried_function_ctor_call]
  show (t.closure.call (arg.expr, ArgExprs.prvalues (es.rvalue.init w).1)
    (es.rvalue.init w).2).1 = _
  rw [target_closure_call]

/-- The wrapper `ctor target arg` after a call. -/
theorem ctor_target_call_snd {σ Ret : Type} {A : VType} {As : List VType}
    (t : Target σ Ret (A :: As)) (arg : Bound σ A) (es : ArgExprs σ As) (w : σ) :
    ((curried_function.ctor t.closure arg).call es w).2
      = (curried_function.ctor
          (t.call (arg.expr, ArgExprs.prvalues (es.rvalue.init w).1)
            (es.rvalue.init w).2).2.closure arg.after :
          curried_function σ Ret As) := by
  rw [curried_function_ctor_call]
  show (curried_function.ctor (t.closure.call (arg.expr,
    ArgExprs.prvalues (es.rvalue.init w).1) (es.rvalue.init w).2).2 arg.after :
    curried_function σ Ret As) = _
  rw [target_closure_call]

/-- The outcome of calling `ctor target arg` with temporaries. -/
theorem ctor_target_call_prvalues {σ Ret : Type} {A : VType} {As : List VType}
    (t : Target σ Ret (A :: As)) (arg : Bound σ A) (r : Args As) (w : σ) :
    ((curried_function.ctor t.closure arg).call (ArgExprs.prvalues r) w).1
      = (t.call (arg.expr, ArgExprs.prvalues r) w).1 := by
  rw [ctor_target_call, prvalues_rvalue, prvalues_init]

/-- The wrapper `ctor target arg` after a call with temporaries. -/
theorem ctor_target_call_prvalues_snd {σ Ret : Type} {A : VType} {As : List VType}
    (t : Target σ Ret (A :: As)) (arg : Bound σ A) (r : Args As) (w : σ) :
    ((curried_function.ctor t.closure arg).call (ArgExprs.prvalues r) w).2
      = (curried_function.ctor (t.call (arg.expr, ArgExprs.prvalues r) w).2.closure arg.after :
          curried_function σ Ret As) := by
  rw [ctor_target_call_snd, prvalues_rvalue, prvalues_init]

/-- The member `curry` constructs the wrapper from `func` and the argument. -/
theorem member_curry_eq_ctor {σ Ret : Type} {A : VType} {As : List VType}
    (self : curried_function σ Ret (A :: As)) (onValue : Bound σ A) :
    (self.curry onValue).1
      = curried_function.ctor (Target.function self.func).closure onValue :=
  rfl

/-- A wrapper built over a callable that never throws `e` never throws `e`. -/
theorem ctor_never_throws {σ Ret : Type} {A : VType} {As : List VType}
    (c : Closure σ Ret (A :: As)) (arg : Bound σ A) (e : Exn) (h : c.never_throws e) :
    (is_invocable.closure (curried_function.ctor c arg) : Closure σ Ret As).never_throws e := by
  intro s es w
  exact h s.1 _ _

/-- A wrapper whose callable never throws `e` does not throw `e` when called,
and its callable after the call never throws `e` either. -/
theorem call_never_throws {σ Ret : Type} {As : List VType} (cF : curried_function σ Ret As)
    (e : Exn) (h : (is_invocable.closure cF : Closure σ Ret As).never_throws e)
    (es : ArgExprs σ As) (w : σ) :
    (cF.call es w).1.1 ≠ Except.error e ∧
      (is_invocable.closure (cF.call es w).2 : Closure σ Ret As).never_throws e := by
  obtain ⟨⟨t⟩⟩ := cF
  cases t with
  | none => exact ⟨h () es w, h⟩
  | some c => exact ⟨h c.cap es w, h⟩

/-- The callable of a `std::function` never throws `e` when the callable of
the wrapper that holds it as `func` never does. -/
theorem func_never_throws {σ Ret : Type} {As : List VType} (cF : curried_function σ Ret As)
    (e : Exn) (h : (is_invocable.closure cF : Closure σ Ret As).never_throws e)
    (hne : e ≠ Exn.bad_function_call) :
    (is_invocable.closure cF.func : Closure σ Ret As).never_throws e := by
  obtain ⟨⟨t⟩⟩ := cF
  cases t with
  | none =>
    intro s es w hx
    exact hne (Except.error.inj hx).symm
  | some c =>
    intro s es w
    have h1 := h s (ArgExprs.prvalues (es.init w).1) (es.init w).2
    have h2 : (ArgExprs.prvalues (es.init w).1 : ArgExprs σ As).rvalue.init (es.init w).2
        = ((es.init w).1, (es.init w).2) := by
      rw [prvalues_rvalue, prvalues_init]
    have h3 : (c.body s (ArgExprs.prvalues
        ((ArgExprs.prvalues (es.init w).1 : ArgExprs σ As).rvalue.init (es.init w).2).1)
        ((ArgExprs.prvalues (es.init w).1 : ArgExprs σ As).rvalue.init (es.init w).2).2).1.1
        ≠ Except.error e := h1
    rw [h2] at h3
    exact h3

/-- A wrapper built over a callable that always throws `e` always throws `e`. -/
theorem ctor_always_throws {σ Ret : Type} {A : VType} {As : List VType}
    (c : Closure σ Ret (A :: As)) (arg : Bound σ A) (e : Exn) (h : c.always_throws e) :
    (is_invocable.closure (curried_function.ctor c arg) : Closure σ Ret As).always_throws e := by
  intro s es w
  exact h s.1 _ _

/-- A wrapper whose callable always throws `e` throws `e` when called, and its
callable after the call always throws `e` too. -/
theorem call_always_throws {σ Ret : Type} {As : List VType} (cF : curried_function σ Ret As)
    (e : Exn) (h : (is_invocable.closure cF : Closure σ Ret As).always_throws e)
    (es : ArgExprs σ As) (w : σ) :
    (cF.call es w).1.1 = Except.error e ∧
      (is_invocable.closure (cF.call es w).2 : Closure σ Ret As).always_throws e := by
  obtain ⟨⟨t⟩⟩ := cF
  cases t with
  | none => exact ⟨h () es w, h⟩
  | some c => exact ⟨h c.cap es w, h⟩

/-- The callable of an empty wrapper always throws `std::bad_function_call`. -/
theorem ctor_default_always_throws {σ Ret : Type} {As : List VType} :
    (is_invocable.closure (curried_function.ctor_default : curried_function σ Ret As) :
      Closure σ Ret As).always_throws Exn.bad_function_call :=
  fun _ _ _ => rfl

/-- The callable of an empty `std::function` always throws
`std::bad_function_call`. -/
theorem empty_function_always_throws {σ Ret : Type} {As : List VType} :
    (is_invocable.closure (⟨none⟩ : std.function σ Ret As) :
      Closure σ Ret As).always_throws Exn.bad_function_call :=
  fun _ _ _ => rfl

/-- Called with temporaries, a wrapper does what its `func` does. -/
theorem call_prvalues_eq_func_call {σ Ret : Type} {As : List VType}
    (self : curried_function σ Ret As) (r : Args As) (w : σ) :
    (self.call (ArgExprs.prvalues r) w).1 = (self.func.call (ArgExprs.prvalues r) w).1 ∧
    (self.call (ArgExprs.prvalues r) w).2.func = (self.func.call (ArgExprs.prvalues r) w).2 := by
  have h := @prvalues_rvalue σ As r
  have h2 := @prvalues_init σ As r w
  obtain ⟨⟨t⟩⟩ := self
  cases t with
  | none =>
    simp only [curried_function.call, std.function.call, h2]
    exact ⟨rfl, rfl⟩
  | some c =>
    simp only [curried_function.call, h]
    exact ⟨rfl, rfl⟩

/-- The callable of `func` always throws `std::bad_function_call` when the
callable of the wrapper does. -/
theorem func_always_throws {σ Ret : Type} {As : List VType} (cF : curried_function σ Ret As)
    (h : (is_invocable.closure cF : Closure σ Ret As).always_throws Exn.bad_function_call) :
    (is_invocable.closure cF.func : Closure σ Ret As).always_throws Exn.bad_function_call := by
  obtain ⟨⟨t⟩⟩ := cF
  cases t with
  | none =>
    intro s es w
    rfl
  | some c =>
    intro s es w
    have h1 := h s (ArgExprs.prvalues (es.init w).1) (es.init w).2
    have h2 : (ArgExprs.prvalues (es.init w).1 : ArgExprs σ As).rvalue.init (es.init w).2
        = ((es.init w).1, (es.init w).2) := by
      rw [prvalues_rvalue, prvalues_init]
    have h3 : (c.body s (ArgExprs.prvalues
        ((ArgExprs.prvalues (es.init w).1 : ArgExprs σ As).rvalue.init (es.init w).2).1)
        ((ArgExprs.prvalues (es.init w).1 : ArgExprs σ As).rvalue.init (es.init w).2).2).1.1
        = Except.error Exn.bad_function_call := h1
    rw [h2] at h3
    exact h3

/-- The expected output of the block `with reference` of `runTestsCurried`,
as its comments give it: `2 5`, `7 5 9`, `7 5 4`, `7 3 7`, `8 9 8 8 0`. -/
theorem runTestsCurried_reference_output :
    runTestsCurried_reference = [[2, 5], [7, 5, 9], [7, 5, 4], [7, 3, 7], [8, 9], [8, 8, 0]] :=
  rfl

/-- The expected output of the block `with values` of `runTestsCurried`:
`0 5`, `0 7 9`, `0 7 9`, `0 2 3`, `0 5 0 6 0`. -/
theorem runTestsCurried_values_output :
    runTestsCurried_values = [[0, 5], [0, 7, 9], [0, 7, 9], [0, 2, 3], [0, 5], [0, 6, 0]] :=
  rfl

/-- The expected output of `runTests` on plain functions:
`0`, `0 1`, `2`, `2 3`, `4`, `5 5`, `6`, `7 8`. -/
theorem runTests_pointer_output :
    runTests (Target.pointer func_1args) (Target.pointer func_2args)
      = Except.ok [[0], [0, 1], [2], [2, 3], [4], [5, 5], [6], [7, 8]] :=
  rfl

/-- The expected output of `runTests` on `std::function` instances. -/
theorem runTests_function_output :
    runTests (Target.function fn1args) (Target.function fn2args)
      = Except.ok [[0], [0, 1], [2], [2, 3], [4], [5, 5], [6], [7, 8]] :=
  rfl

/-! ## Claims -/

/-- C1 (arity peeling): for a target of any shape (plain function,
`std::function`, `curried_function`) with one or more arguments, applying
`ed::curry` once per argument, each bound by value in order, gives a wrapper
of no remaining argument, and calling that wrapper has the outcome of calling
the target with the same arguments in the same order. -/
theorem arity_peeling {σ Ret : Type} (As : List VType) (A : VType)
    (target : Target σ Ret (A :: As)) (args : Args (A :: As)) :
    ∃ cF : curried_function σ Ret [],
      curry_all As A target args = Except.ok cF ∧
        ∀ w : σ, (cF.call () w).1 = (target.call (ArgExprs.prvalues args) w).1 := by
  induction As generalizing A with
  | nil =>
    refine ⟨curried_function.ctor target.closure (Bound.value args.1), ?_, ?_⟩
    · simp [curry_all, curry_eq_ctor]
    · intro w
      exact ctor_target_call_prvalues target (Bound.value args.1) () w
  | cons B Bs ih =>
    obtain ⟨cF, hcF, hcall⟩ :=
      ih B (Target.curried (curried_function.ctor target.closure (Bound.value args.1))) args.2
    refine ⟨cF, ?_, ?_⟩
    · simp only [curry_all, curry_eq_ctor]
      exact hcF
    · intro w
      rw [hcall w]
      exact ctor_target_call_prvalues target (Bound.value args.1) args.2 w

/-- C3 (zero-arity rejection): for a target of no argument of any of the four
shapes (plain function, `std::function`, `curried_function` holding a callable
or not, any other nullary callable) and an argument of any type,
`ed::curry(target, arg)` throws `invalid_curry`; so for `func_0args` with
`std::ref(_t)`, for a constructed wrapper with `std::make_pair(0, 5)`, and for
a default-constructed wrapper. -/
theorem zero_arity_rejection {σ Ret : Type} {T : Type v} (target : NullaryTarget σ Ret)
    (arg : T) :
    curry_nullary target arg = Except.error Exn.invalid_curry ∧
    curry_nullary (NullaryTarget.pointer func_0args) ref_t = Except.error Exn.invalid_curry ∧
    curry_nullary (NullaryTarget.curried (curried_function.ctor func_1args (Bound.value 0)))
      ((0 : Int), (5 : Int)) = Except.error Exn.invalid_curry ∧
    curry_nullary
      (NullaryTarget.curried (curried_function.ctor_default : curried_function σ Ret [])) arg
      = Except.error Exn.invalid_curry := by
  refine ⟨?_, rfl, rfl, rfl⟩
  cases target <;> rfl

/-- C4: the member `curry()` of a wrapper of no remaining argument throws
`invalid_curry`, for every such wrapper: in particular one constructed from a
callable and an argument bound by value or by reference, and a
default-constructed one. -/
theorem member_curry_nullary_throws {σ Ret : Type} {A : VType}
    (self : curried_function σ Ret []) (target : Target σ Ret [A]) (arg : Bound σ A) :
    self.curry_nullary.1 = Except.error Exn.invalid_curry ∧
    (curried_function.ctor target.closure arg).curry_nullary.1
      = Except.error Exn.invalid_curry ∧
    (curried_function.ctor_default : curried_function σ Ret []).curry_nullary.1
      = Except.error Exn.invalid_curry :=
  ⟨rfl, rfl, rfl⟩

/-- C5: `ed::curry` and the member `curry()` throw `invalid_curry` on a target
of no remaining argument; on a target of one or more arguments the free
`curry` returns a wrapper of one argument less; and when the callable of the
target never throws `invalid_curry`, neither does the callable of the wrapper
returned by the free or the member `curry`, so that no call of the wrapper,
with any argument expressions, now or after earlier calls, throws it. A
default-constructed wrapper never throws `invalid_curry` either. -/
theorem invalid_curry_only_at_curry {σ Ret : Type} {A : VType} {As : List VType}
    {T : Type v} (target : Target σ Ret (A :: As)) (self : curried_function σ Ret (A :: As))
    (arg : Bound σ A) (nullary : NullaryTarget σ Ret) (self0 : curried_function σ Ret [])
    (x : T) :
    curry_nullary nullary x = Except.error Exn.invalid_curry ∧
    self0.curry_nullary.1 = Except.error Exn.invalid_curry ∧
    (∃ cF : curried_function σ Ret As, curry target arg = Except.ok cF ∧
      (target.closure.never_throws Exn.invalid_curry →
        (is_invocable.closure cF : Closure σ Ret As).never_throws Exn.invalid_curry)) ∧
    ((is_invocable.closure self : Closure σ Ret (A :: As)).never_throws Exn.invalid_curry →
      (is_invocable.closure (self.curry arg).1 : Closure σ Ret As).never_throws
        Exn.invalid_curry) ∧
    (∀ cF : curried_function σ Ret As,
      (is_invocable.closure cF : Closure σ Ret As).never_throws Exn.invalid_curry →
        ∀ (es : ArgExprs σ As) (w : σ),
          (cF.call es w).1.1 ≠ Except.error Exn.invalid_curry ∧
          (is_invocable.closure (cF.call es w).2 : Closure σ Ret As).never_throws
            Exn.invalid_curry) ∧
    (is_invocable.closure (curried_function.ctor_default : curried_function σ Ret As) :
      Closure σ Ret As).never_throws Exn.invalid_curry := by
  refine ⟨by cases nullary <;> rfl, rfl, ⟨_, curry_eq_ctor target arg, ?_⟩, ?_, ?_, ?_⟩
  · exact ctor_never_throws target.closure arg Exn.invalid_curry
  · intro h
    rw [member_curry_eq_ctor]
    exact ctor_never_throws _ arg Exn.invalid_curry
      (func_never_throws self Exn.invalid_curry h (by decide))
  · intro cF h es w
    exact call_never_throws cF Exn.invalid_curry h es w
  · intro s es w h
    cases h

/-- C5 on the test program: `func_2args` never throws `invalid_curry`, and a
call of `curry(func_2args, 0)` does not throw it. -/
theorem invalid_curry_only_at_curry_witness :
    (Target.pointer func_2args).closure.never_throws Exn.invalid_curry ∧
    ((curry_pointer func_2args 0).call (ArgExpr.prvalue (1 : Int), ()) ⟨0, []⟩).1.1
      ≠ Except.error Exn.invalid_curry := by
  have hf : (Target.pointer func_2args).closure.never_throws Exn.invalid_curry := by
    intro s es w h
    cases h
  obtain ⟨_, _, ⟨cF, hcF, hnt⟩, _, hcall, _⟩ :=
    @invalid_curry_only_at_curry TestState Int int [int] Unit (Target.pointer func_2args)
      curried_function.ctor_default (Bound.value 0) (NullaryTarget.pointer func_0args)
      curried_function.ctor_default ()
  have hcF2 : curry_pointer func_2args 0 = cF := Except.ok.inj hcF
  rw [hcF2]
  exact ⟨hf, (hcall cF (hnt hf) (ArgExpr.prvalue (1 : Int), ()) ⟨0, []⟩).1⟩

/-- C2 (partial application), and where the code leaves it. For a target `t`
of any shape and a value `a` bound by value, `curry(t, a)` returns a wrapper
`w`; called with temporaries `r`, `w(r...)` has the outcome of `t(a, r...)`,
and `curry(curry(f, a), b)` called with a temporary `c` has the outcome of
`f(a, b, c)`. Called with any argument expressions, `w` casts them to rvalues,
initialises parameters from them, and calls `t` with `a` and those
parameters. So `curry(sizes, 100)(v, v)` on the variable `v = {1, 2}` returns
102 and leaves `v` empty, where `sizes(100, v, v)` returns 104 and leaves `v`
as it was. -/
theorem partial_application {σ Ret : Type} {A B C : VType} {As : List VType}
    (t : Target σ Ret (A :: As)) (a : A.carrier)
    (f : Target σ Ret [A, B, C]) (b : B.carrier) (c : C.carrier) :
    (∃ cF : curried_function σ Ret As,
      curry t (Bound.value a) = Except.ok cF ∧
      (∀ (r : Args As) (w : σ),
        (cF.call (ArgExprs.prvalues r) w).1
          = (t.call (ArgExpr.prvalue a, ArgExprs.prvalues r) w).1) ∧
      (∀ (es : ArgExprs σ As) (w : σ),
        (cF.call es w).1
          = (t.call (ArgExpr.prvalue a, ArgExprs.prvalues (es.rvalue.init w).1)
              (es.rvalue.init w).2).1)) ∧
    (∃ (cF1 : curried_function σ Ret [B, C]) (cF2 : curried_function σ Ret [C]),
      curry f (Bound.value a) = Except.ok cF1 ∧
      curry (Target.curried cF1) (Bound.value b) = Except.ok cF2 ∧
        ∀ w : σ, (cF2.call (ArgExpr.prvalue c, ()) w).1
          = (f.call (ArgExpr.prvalue a, ArgExpr.prvalue b, ArgExpr.prvalue c, ()) w).1) ∧
    ((curry_pointer sizes 100).call (ArgExpr.lvalue ref_v, ArgExpr.lvalue ref_v, ())
        ⟨0, [1, 2]⟩).1 = (Except.ok 102, ⟨0, []⟩) ∧
    ((Target.pointer sizes).call
        (ArgExpr.prvalue 100, ArgExpr.lvalue ref_v, ArgExpr.lvalue ref_v, ()) ⟨0, [1, 2]⟩).1
      = (Except.ok 104, ⟨0, [1, 2]⟩) := by
  refine ⟨⟨_, curry_eq_ctor t (Bound.value a), ?_, ?_⟩,
    ⟨_, _, curry_eq_ctor f (Bound.value a), curry_eq_ctor _ (Bound.value b), ?_⟩, rfl, rfl⟩
  · intro r w
    exact ctor_target_call_prvalues t (Bound.value a) r w
  · intro es w
    exact ctor_target_call t (Bound.value a) es w
  · intro w
    have h1 := ctor_target_call_prvalues
      (Target.curried (curried_function.ctor f.closure (Bound.value a))) (Bound.value b)
      (c, ()) w
    have h2 := ctor_target_call_prvalues f (Bound.value a) (b, c, ()) w
    exact h1.trans h2

/-- C6 (value capture), and where the code leaves it. Let the variable `v`
hold `v.get w0` when `curry(target, v)` binds it by value, for a target of
any shape. After `v` is assigned `b`, and in every later state, the wrapper
still passes the value bound: called with temporaries `r` it has the outcome
of `target(A, r...)` for the value `A` that `v` held at the bind; called with
any argument expressions it calls the target with `A` and the parameters
initialised from the arguments cast to rvalues. So after `int n = 100;`
`w = curry(sizes, n); n = 3;` the call `w(v, v)` on `v = {1, 2}` returns 102
and empties `v`, where `sizes(100, v, v)` returns 104 and leaves `v`. -/
theorem value_capture_snapshot {σ Ret : Type} {A : VType} {As : List VType}
    (target : Target σ Ret (A :: As)) (v : std.reference_wrapper σ A) (w0 : σ)
    (b : A.carrier) :
    (∃ cF : curried_function σ Ret As,
      curry target (Bound.value (v.get w0)) = Except.ok cF ∧
      (∀ r : Args As,
        (cF.call (ArgExprs.prvalues r) (v.set b w0)).1
          = (target.call (ArgExpr.prvalue (v.get w0), ArgExprs.prvalues r) (v.set b w0)).1) ∧
      (∀ (r : Args As) (w : σ),
        (cF.call (ArgExprs.prvalues r) w).1
          = (target.call (ArgExpr.prvalue (v.get w0), ArgExprs.prvalues r) w).1) ∧
      (∀ (es : ArgExprs σ As) (w : σ),
        (cF.call es w).1
          = (target.call (ArgExpr.prvalue (v.get w0), ArgExprs.prvalues (es.rvalue.init w).1)
              (es.rvalue.init w).2).1)) ∧
    ((curry_pointer sizes (ref_n.get ⟨100, [1, 2]⟩)).call
        (ArgExpr.lvalue ref_v, ArgExpr.lvalue ref_v, ()) (ref_n.set 3 ⟨100, [1, 2]⟩)).1
      = (Except.ok 102, ⟨3, []⟩) ∧
    ((Target.pointer sizes).call
        (ArgExpr.prvalue 100, ArgExpr.lvalue ref_v, ArgExpr.lvalue ref_v, ())
        (ref_n.set 3 ⟨100, [1, 2]⟩)).1
      = (Except.ok 104, ⟨3, [1, 2]⟩) := by
  refine ⟨⟨_, curry_eq_ctor target _, ?_, ?_, ?_⟩, rfl, rfl⟩
  · intro r
    exact ctor_target_call_prvalues target (Bound.value (v.get w0)) r (v.set b w0)
  · intro r w
    exact ctor_target_call_prvalues target (Bound.value (v.get w0)) r w
  · intro es w
    exact ctor_target_call target (Bound.value (v.get w0)) es w

/-- C7 (reference capture), and where the code leaves it. Let
`curry(target, std::ref(v))` bind the variable `v`. A call of the wrapper is a
call of the target with the variable `v` itself as first argument, after the
parameters were initialised from the supplied arguments cast to rvalues. For
a plain function or a `std::function` and temporaries `r`, the call after
`v` is assigned `b` has the outcome of `target(b, r...)`, and for a plain
function the next call, after `v` is assigned `b2`, passes `b2`. A wrapper as
target moves from `v`: with `c1 = curry(size_plus, 100)` and `v = {1, 2}`,
`curry(c1, std::ref(v))()` returns 102 and leaves `v` empty, where
`c1(std::vector<int>{1, 2})` leaves `v` as it was, and the next call returns
100. And `curry(sizes, std::ref(n))(v, v)` returns 102 and empties `v`, where
`sizes(100, v, v)` returns 104. -/
theorem reference_capture_aliasing {σ Ret : Type} {A : VType} {As : List VType}
    (target : Target σ Ret (A :: As)) (fn : function_pointer σ Ret (A :: As))
    (f : std.function σ Ret (A :: As)) (v : std.reference_wrapper σ A) (w0 w1 : σ)
    (b b2 : A.carrier) (r r2 : Args As) :
    (∃ cF : curried_function σ Ret As,
      curry target (Bound.reference v) = Except.ok cF ∧
      ∀ (es : ArgExprs σ As) (w : σ),
        (cF.call es w).1
          = (target.call (ArgExpr.lvalue v, ArgExprs.prvalues (es.rvalue.init w).1)
              (es.rvalue.init w).2).1) ∧
    ((curry_pointer_ref fn v).call (ArgExprs.prvalues r) (v.set b w0)).1
      = fn.run (b, r) (v.set b w0) ∧
    (((curry_pointer_ref fn v).call (ArgExprs.prvalues r) (v.set b w0)).2.call
        (ArgExprs.prvalues r2) (v.set b2 w1)).1
      = fn.run (b2, r2) (v.set b2 w1) ∧
    ((curry_function_ref f v).call (ArgExprs.prvalues r) (v.set b w0)).1
      = (f.call (ArgExpr.prvalue b, ArgExprs.prvalues r) (v.set b w0)).1 ∧
    ((curry_curried_ref (curry_pointer size_plus 100) ref_v).call () ⟨0, [1, 2]⟩).1
      = (Except.ok 102, ⟨0, []⟩) ∧
    ((curry_pointer size_plus 100).call (ArgExpr.prvalue [1, 2], ()) ⟨0, [1, 2]⟩).1
      = (Except.ok 102, ⟨0, [1, 2]⟩) ∧
    (((curry_curried_ref (curry_pointer size_plus 100) ref_v).call () ⟨0, [1, 2]⟩).2.call ()
        ⟨0, []⟩).1 = (Except.ok 100, ⟨0, []⟩) ∧
    ((curry_pointer_ref sizes ref_n).call (ArgExpr.lvalue ref_v, ArgExpr.lvalue ref_v, ())
        ⟨100, [1, 2]⟩).1 = (Except.ok 102, ⟨100, []⟩) ∧
    ((Target.pointer sizes).call
        (ArgExpr.prvalue 100, ArgExpr.lvalue ref_v, ArgExpr.lvalue ref_v, ()) ⟨100, [1, 2]⟩).1
      = (Except.ok 104, ⟨100, [1, 2]⟩) := by
  have hp : ∀ (x : A.carrier) (s : σ) (q : Args As),
      @ArgExprs.init σ (A :: As) (ArgExpr.lvalue v, ArgExprs.prvalues q) (v.set x s)
        = ((x, q), v.set x s) := by
    intro x s q
    show ((v.get (v.set x s), ((ArgExprs.prvalues q : ArgExprs σ As).init (v.set x s)).1),
      ((ArgExprs.prvalues q : ArgExprs σ As).init (v.set x s)).2) = _
    rw [prvalues_init, v.get_set]
  have hq : ∀ (x : A.carrier) (s : σ) (q : Args As),
      @ArgExprs.init σ (A :: As) (ArgExpr.prvalue x, ArgExprs.prvalues q) (v.set x s)
        = ((x, q), v.set x s) := fun x s q => prvalues_init (A :: As) (x, q) (v.set x s)
  refine ⟨⟨_, curry_eq_ctor target _, fun es w => ctor_target_call target _ es w⟩,
    ?_, ?_, ?_, rfl, rfl, rfl, rfl, rfl⟩
  · have h := ctor_target_call_prvalues (Target.pointer fn) (Bound.reference v) r (v.set b w0)
    refine h.trans ?_
    show fn.run _ _ = _
    rw [show ((Bound.reference v).expr, ArgExprs.prvalues r) =
      ((ArgExpr.lvalue v, ArgExprs.prvalues r) : ArgExprs σ (A :: As)) from rfl, hp]
  · have h1 := ctor_target_call_prvalues_snd (Target.pointer fn) (Bound.reference v) r
      (v.set b w0)
    have h2 := ctor_target_call_prvalues (Target.pointer fn) (Bound.reference v) r2
      (v.set b2 w1)
    show (((curried_function.ctor (Target.pointer fn).closure (Bound.reference v)).call
      (ArgExprs.prvalues r) (v.set b w0)).2.call (ArgExprs.prvalues r2) (v.set b2 w1)).1 = _
    rw [h1]
    refine h2.trans ?_
    show fn.run _ _ = _
    rw [show ((Bound.reference v).expr, ArgExprs.prvalues r2) =
      ((ArgExpr.lvalue v, ArgExprs.prvalues r2) : ArgExprs σ (A :: As)) from rfl, hp]
  · have h := ctor_target_call_prvalues (Target.function f) (Bound.reference v) r (v.set b w0)
    refine h.trans ?_
    show (f.call ((ArgExpr.lvalue v, ArgExprs.prvalues r) : ArgExprs σ (A :: As))
      (v.set b w0)).1 = _
    obtain ⟨t⟩ := f
    cases t with
    | none => simp only [std.function.call, hp, hq]
    | some c => simp only [std.function.call, hp, hq]

/-- C9 (currying leaves the wrapper alone): after the member `curry(x)` and
after the statement `ed::curry(w, x)` on a wrapper of one or more remaining
arguments, and after the member `curry()` and the statement `ed::curry(w, y)`
on a wrapper of none, which both throw `invalid_curry`, the wrapper is the
wrapper it was, of the same signature, and every call of it is the call it
was before. The bound argument shows only in the wrapper returned: a call of
that one is a call of `func`, for the member `curry`, or of the wrapper, for
the free one, with the bound argument first and then the parameters
initialised from the supplied arguments cast to rvalues; and it is the copy
held by the wrapper returned that such a call changes. -/
theorem curry_leaves_wrapper {σ Ret : Type} {A : VType} {As : List VType} {T : Type v}
    (self : curried_function σ Ret (A :: As)) (x : Bound σ A)
    (self0 : curried_function σ Ret []) (y : T) :
    ((self.curry x).2 = self ∧ (curry_statement self x).2 = self) ∧
    (self0.curry_nullary.2 = self0 ∧ (curry_nullary_statement self0 y).2 = self0 ∧
      self0.curry_nullary.1 = Except.error Exn.invalid_curry ∧
      (curry_nullary_statement self0 y).1 = Except.error Exn.invalid_curry) ∧
    (∀ (es : ArgExprs σ (A :: As)) (w : σ),
      (self.curry x).2.call es w = self.call es w ∧
      (curry_statement self x).2.call es w = self.call es w) ∧
    (∀ w : σ,
      self0.curry_nullary.2.call () w = self0.call () w ∧
      (curry_nullary_statement self0 y).2.call () w = self0.call () w) ∧
    (∀ (es : ArgExprs σ As) (w : σ),
      ((self.curry x).1.call es w).1
        = (self.func.call (x.expr, ArgExprs.prvalues (es.rvalue.init w).1)
            (es.rvalue.init w).2).1) ∧
    (∃ cF : curried_function σ Ret As,
      (curry_statement self x).1 = Except.ok cF ∧
      ∀ (es : ArgExprs σ As) (w : σ),
        (cF.call es w).1
          = (self.call (x.expr, ArgExprs.prvalues (es.rvalue.init w).1)
              (es.rvalue.init w).2).1 ∧
        (cF.call es w).2
          = (curried_function.ctor
              (self.call (x.expr, ArgExprs.prvalues (es.rvalue.init w).1)
                (es.rvalue.init w).2).2 x.after : curried_function σ Ret As)) := by
  refine ⟨⟨rfl, rfl⟩, ⟨rfl, rfl, rfl, rfl⟩, fun _ _ => ⟨rfl, rfl⟩,
    fun _ => ⟨rfl, rfl⟩, ?_, ⟨_, curry_eq_ctor _ x, ?_⟩⟩
  · intro es w
    rw [member_curry_eq_ctor]
    exact ctor_target_call (Target.function self.func) x es w
  · intro es w
    exact ⟨ctor_target_call (Target.curried self) x es w,
      ctor_target_call_snd (Target.curried self) x es w⟩

/-- C10 (conversion), and where the code leaves it. The conversion returns
`func`. Called with temporaries, the `std::function` a wrapper converts to has
the outcome of the wrapper called with them, and leaves the `std::function`
that the wrapper converts to after its own call; an empty wrapper and its
conversion both throw `std::bad_function_call`, whatever the arguments. With
variables as arguments the two differ, for the wrapper casts its arguments to
rvalues: for `w = curry(sizes, 100)` and `v = {1, 2}`, the conversion called
as `f(v, v)` returns 104 and leaves `v`, and `w(v, v)` returns 102 and leaves
`v` empty. -/
theorem conversion_preserves_behaviour {σ Ret : Type} {As : List VType}
    (self : curried_function σ Ret As) (r : Args As) (es : ArgExprs σ As) (w : σ) :
    self.to_function = self.func ∧
    (self.to_function.call (ArgExprs.prvalues r) w).1 = (self.call (ArgExprs.prvalues r) w).1 ∧
    (self.to_function.call (ArgExprs.prvalues r) w).2
      = (self.call (ArgExprs.prvalues r) w).2.to_function ∧
    ((curried_function.ctor_default : curried_function σ Ret As).to_function.call es w).1.1
      = Except.error Exn.bad_function_call ∧
    ((curried_function.ctor_default : curried_function σ Ret As).call es w).1.1
      = Except.error Exn.bad_function_call ∧
    ((curry_pointer sizes 100).to_function.call
        (ArgExpr.lvalue ref_v, ArgExpr.lvalue ref_v, ()) ⟨0, [1, 2]⟩).1
      = (Except.ok 104, ⟨0, [1, 2]⟩) ∧
    ((curry_pointer sizes 100).call
        (ArgExpr.lvalue ref_v, ArgExpr.lvalue ref_v, ()) ⟨0, [1, 2]⟩).1
      = (Except.ok 102, ⟨0, []⟩) := by
  have h := call_prvalues_eq_func_call self r w
  exact ⟨rfl, h.1.symm, h.2.symm, rfl, rfl, rfl, rfl⟩

/-- C11 as stated fails: a wrapper obtained by the member `curry` of an empty
wrapper holds a callable, and the wrapper `ed::curry` constructs from it and a
bound argument throws `std::bad_function_call` when called. -/
theorem nonempty_callable_bad_function_call :
    ¬ ∀ (target : Target TestState Int [int]) (arg : Bound TestState int) (w : TestState),
        target.holds_callable = true →
          ∀ cF : curried_function TestState Int [], curry target arg = Except.ok cF →
            (cF.call () w).1.1 ≠ Except.error Exn.bad_function_call := by
  intro h
  exact h
    (Target.curried
      ((curried_function.ctor_default : curried_function TestState Int [int, int]).curry
        (Bound.value 0)).1)
    (Bound.value 1) ⟨0, []⟩ rfl _ rfl rfl

/-- C11, amended: a call of a default-constructed wrapper, of any signature
and with any arguments, throws `std::bad_function_call`, so it returns no
value and does not throw `invalid_curry`, and leaves the wrapper empty and the
program state as it was. A wrapper that `ed::curry` constructs from a target
whose callable never throws `std::bad_function_call` never throws it when
called, now or after earlier calls. -/
theorem empty_wrapper_call {σ Ret : Type} {A : VType} {As : List VType}
    (args : ArgExprs σ As) (w : σ) (target : Target σ Ret (A :: As)) (arg : Bound σ A) :
    ((curried_function.ctor_default : curried_function σ Ret As).call args w).1
      = (Except.error Exn.bad_function_call, w) ∧
    ((curried_function.ctor_default : curried_function σ Ret As).call args w).2
      = curried_function.ctor_default ∧
    ((curried_function.ctor_default : curried_function σ Ret As).call args w).1.1
      ≠ Except.error Exn.invalid_curry ∧
    (∀ ret : Ret,
      ((curried_function.ctor_default : curried_function σ Ret As).call args w).1.1
        ≠ Except.ok ret) ∧
    (target.closure.never_throws Exn.bad_function_call →
      ∃ cF : curried_function σ Ret As, curry target arg = Except.ok cF ∧
        (is_invocable.closure cF : Closure σ Ret As).never_throws Exn.bad_function_call ∧
        ∀ (r : ArgExprs σ As) (w1 : σ),
          (cF.call r w1).1.1 ≠ Except.error Exn.bad_function_call ∧
          (is_invocable.closure (cF.call r w1).2 : Closure σ Ret As).never_throws
            Exn.bad_function_call) := by
  refine ⟨rfl, rfl, ?_, ?_, ?_⟩
  · intro h
    cases h
  · intro ret h
    cases h
  · intro h
    have hc := ctor_never_throws target.closure arg Exn.bad_function_call h
    exact ⟨_, curry_eq_ctor target arg, hc, fun r w1 => call_never_throws _ _ hc r w1⟩

/-- C11 on the test program: `func_2args` never throws
`std::bad_function_call`, and a call of `curry(func_2args, 0)` does not throw
it. -/
theorem empty_wrapper_call_witness :
    (Target.pointer func_2args).closure.never_throws Exn.bad_function_call ∧
    ((curry_pointer func_2args 0).call (ArgExpr.prvalue (1 : Int), ()) ⟨0, []⟩).1.1
      ≠ Except.error Exn.bad_function_call := by
  have hf : (Target.pointer func_2args).closure.never_throws Exn.bad_function_call := by
    intro s es w h
    cases h
  obtain ⟨cF, hcF, _, hcall⟩ :=
    (@empty_wrapper_call TestState Int int [int] (ArgExpr.prvalue (1 : Int), ()) ⟨0, []⟩
      (Target.pointer func_2args) (Bound.value 0)).2.2.2.2 hf
  have hcF2 : curry_pointer func_2args 0 = cF := Except.ok.inj hcF
  rw [hcF2]
  exact ⟨hf, (hcall (ArgExpr.prvalue (1 : Int), ()) ⟨0, []⟩).1⟩

/-- C12 as stated fails: the text of `invalid_curry::what()` is not the text
the claim gives. -/
theorem invalid_curry_what_differs :
    invalid_curry.what ≠ "cannot curry a function that takes no arguments" := by
  decide

/-- C12, amended: every site that throws on currying a target of no argument,
the member `curry()` and each of the four free overloads, throws the one
exception `invalid_curry`, whose `what()` is the fixed text
`Cannot curry function with 0 arguments`. -/
theorem invalid_curry_message {σ Ret : Type} {T : Type v} (self : curried_function σ Ret [])
    (cF : std.function σ Ret []) (fn : function_pointer σ Ret []) (c : Closure σ Ret [])
    (arg : T) :
    self.curry_nullary.1 = Except.error Exn.invalid_curry ∧
    curry_curried_nullary self arg = Except.error Exn.invalid_curry ∧
    curry_function_nullary cF arg = Except.error Exn.invalid_curry ∧
    curry_pointer_nullary fn arg = Except.error Exn.invalid_curry ∧
    curry_callable_nullary c arg = Except.error Exn.invalid_curry ∧
    invalid_curry.what = "Cannot curry function with 0 arguments" :=
  ⟨rfl, rfl, rfl, rfl, rfl, rfl⟩

/-- C13 on a wrapper over a plain function, bound by value: the first call
hands the function the bound value `a`, the second one the value
`moved_from a` that the first call left in the capture. For
`curry(size_of, std::vector<int>{1, 2, 3})` the first call returns 3 and the
second 0, and the wrapper after the first call is `curry(size_of, {})`; for
the `int` of `curry(func_1args, 5)` the call leaves the wrapper as it was. -/
theorem second_call_gets_moved_from {σ Ret : Type} {A : VType} {As : List VType}
    (fn : function_pointer σ Ret (A :: As)) (a : A.carrier) (r r2 : Args As) (w w2 : σ) :
    ((curry_pointer fn a).call (ArgExprs.prvalues r) w).1 = fn.run (a, r) w ∧
    (((curry_pointer fn a).call (ArgExprs.prvalues r) w).2.call (ArgExprs.prvalues r2) w2).1
      = fn.run (A.moved_from a, r2) w2 ∧
    ((curry_pointer size_of [1, 2, 3]).call () ⟨0, []⟩).1 = (Except.ok 3, ⟨0, []⟩) ∧
    (((curry_pointer size_of [1, 2, 3]).call () ⟨0, []⟩).2.call () ⟨0, []⟩).1
      = (Except.ok 0, ⟨0, []⟩) ∧
    ((curry_pointer size_of [1, 2, 3]).call () ⟨0, []⟩).2 = curry_pointer size_of [] ∧
    ((curry_pointer func_1args 5).call () ⟨0, []⟩).2 = curry_pointer func_1args 5 := by
  have h0 : ∀ (x : A.carrier) (q : Args As) (s : σ),
      ((curry_pointer fn x).call (ArgExprs.prvalues q) s).1 = fn.run (x, q) s := by
    intro x q s
    have h := ctor_target_call_prvalues (Target.pointer fn) (Bound.value x) q s
    refine h.trans ?_
    show fn.run (@ArgExprs.init σ (A :: As) (ArgExprs.prvalues (x, q)) s).1
      (@ArgExprs.init σ (A :: As) (ArgExprs.prvalues (x, q)) s).2 = _
    rw [prvalues_init]
  refine ⟨h0 a r w, ?_, rfl, rfl, rfl, rfl⟩
  have h1 := ctor_target_call_prvalues_snd (Target.pointer fn) (Bound.value a) r w
  show (((curried_function.ctor (Target.pointer fn).closure (Bound.value a)).call
    (ArgExprs.prvalues r) w).2.call (ArgExprs.prvalues r2) w2).1 = _
  rw [h1]
  exact h0 (A.moved_from a) r2 w2

/-- C14, and where the code leaves it. For a wrapper of one or more remaining
arguments, holding a callable or empty, and an argument bound by value, the
free `curry(w, a)`, which captures a copy of the wrapper, and the member
`w.curry(a)`, which captures `func`, return wrappers of one argument less
whose calls, with any argument expressions, have the same outcome. Bound
through a `std::reference_wrapper` they differ: the `std::function` in the
member form copies the aliased variable, the wrapper in the free form casts
it to an rvalue and moves from it. With `c1 = curry(size_plus, 100)` and
`v = {1, 2}`, `curry(c1, std::ref(v))` called twice returns 102 and then 100
and leaves `v` empty after the first call; `c1.curry(std::ref(v))` called
twice returns 102 and 102 and leaves `v` as it was. -/
theorem member_curry_agrees_with_free {σ Ret : Type} {A : VType} {As : List VType}
    (self : curried_function σ Ret (A :: As)) (a : A.carrier) (es : ArgExprs σ As) (w : σ) :
    curry (Target.curried self) (Bound.value a) = Except.ok (curry_curried self a) ∧
    ((curry_curried self a).call es w).1 = ((self.curry (Bound.value a)).1.call es w).1 ∧
    ((curry_curried (curried_function.ctor_default : curried_function σ Ret (A :: As)) a).call
        es w).1
      = (((curried_function.ctor_default : curried_function σ Ret (A :: As)).curry
          (Bound.value a)).1.call es w).1 ∧
    ((curry_curried_ref (curry_pointer size_plus 100) ref_v).call () ⟨0, [1, 2]⟩).1
      = (Except.ok 102, ⟨0, []⟩) ∧
    (((curry_pointer size_plus 100).curry (Bound.reference ref_v)).1.call () ⟨0, [1, 2]⟩).1
      = (Except.ok 102, ⟨0, [1, 2]⟩) ∧
    (((curry_curried_ref (curry_pointer size_plus 100) ref_v).call () ⟨0, [1, 2]⟩).2.call ()
        ⟨0, []⟩).1 = (Except.ok 100, ⟨0, []⟩) ∧
    ((((curry_pointer size_plus 100).curry (Bound.reference ref_v)).1.call ()
        ⟨0, [1, 2]⟩).2.call () ⟨0, [1, 2]⟩).1 = (Except.ok 102, ⟨0, [1, 2]⟩) := by
  have key : ∀ (c : curried_function σ Ret (A :: As)),
      ((curry_curried c a).call es w).1 = ((c.curry (Bound.value a)).1.call es w).1 := by
    intro c
    have h1 := ctor_target_call (Target.curried c) (Bound.value a) es w
    have h2 := ctor_target_call (Target.function c.func) (Bound.value a) es w
    have h3 := (call_prvalues_eq_func_call c (a, (es.rvalue.init w).1) (es.rvalue.init w).2).1
    rw [member_curry_eq_ctor, h2]
    exact h1.trans h3
  exact ⟨rfl, key self, key _, rfl, rfl, rfl, rfl⟩

/-- C15: for a default-constructed wrapper `e` of one or more remaining
arguments and any argument `x`, the member `e.curry(x)` and the free
`curry(e, x)` return a wrapper, which holds a callable, and the callable of
that wrapper always throws `std::bad_function_call`. Currying a wrapper whose
callable always throws it, with the member or the free `curry`, gives a
wrapper that holds a callable which always throws it; and every call of such
a wrapper, with any argument expressions, throws `std::bad_function_call` and
leaves a wrapper whose callable always throws it. -/
theorem currying_empty_defers {σ Ret : Type} {A B : VType} {As Bs : List VType}
    (x : Bound σ A) (cF : curried_function σ Ret (B :: Bs)) (y : Bound σ B)
    (cF2 : curried_function σ Ret Bs) :
    ((((curried_function.ctor_default : curried_function σ Ret (A :: As)).curry
          x).1.func.target.isSome = true) ∧
      (is_invocable.closure
          ((curried_function.ctor_default : curried_function σ Ret (A :: As)).curry x).1 :
        Closure σ Ret As).always_throws Exn.bad_function_call) ∧
    (∃ c1 : curried_function σ Ret As,
      curry (Target.curried (curried_function.ctor_default : curried_function σ Ret (A :: As))) x
        = Except.ok c1 ∧
      c1.func.target.isSome = true ∧
      (is_invocable.closure c1 : Closure σ Ret As).always_throws Exn.bad_function_call) ∧
    ((is_invocable.closure cF : Closure σ Ret (B :: Bs)).always_throws Exn.bad_function_call →
      ((cF.curry y).1.func.target.isSome = true ∧
        (is_invocable.closure (cF.curry y).1 : Closure σ Ret Bs).always_throws
          Exn.bad_function_call) ∧
      ∃ c2 : curried_function σ Ret Bs, curry (Target.curried cF) y = Except.ok c2 ∧
        c2.func.target.isSome = true ∧
        (is_invocable.closure c2 : Closure σ Ret Bs).always_throws Exn.bad_function_call) ∧
    ((is_invocable.closure cF2 : Closure σ Ret Bs).always_throws Exn.bad_function_call →
      ∀ (es : ArgExprs σ Bs) (w : σ),
        (cF2.call es w).1.1 = Except.error Exn.bad_function_call ∧
        (is_invocable.closure (cF2.call es w).2 : Closure σ Ret Bs).always_throws
          Exn.bad_function_call) := by
  have step : ∀ {C : VType} {Cs : List VType} (c : curried_function σ Ret (C :: Cs))
      (z : Bound σ C),
      (is_invocable.closure c : Closure σ Ret (C :: Cs)).always_throws Exn.bad_function_call →
      ((c.curry z).1.func.target.isSome = true ∧
        (is_invocable.closure (c.curry z).1 : Closure σ Ret Cs).always_throws
          Exn.bad_function_call) ∧
      ∃ c2 : curried_function σ Ret Cs, curry (Target.curried c) z = Except.ok c2 ∧
        c2.func.target.isSome = true ∧
        (is_invocable.closure c2 : Closure σ Ret Cs).always_throws Exn.bad_function_call := by
    intro C Cs c z h
    have hc := ctor_always_throws (Target.curried c).closure z Exn.bad_function_call h
    have hm := ctor_always_throws (Target.function c.func).closure z Exn.bad_function_call
      (func_always_throws c h)
    refine ⟨⟨rfl, ?_⟩, _, curry_eq_ctor _ z, rfl, hc⟩
    rw [member_curry_eq_ctor]
    exact hm
  have h0 := step (curried_function.ctor_default : curried_function σ Ret (A :: As)) x
    ctor_default_always_throws
  exact ⟨h0.1, h0.2, step cF y, fun h es w => call_always_throws cF2 _ h es w⟩

/-- C15 on the test program: the empty `curried_function<int(int, int)>`
curried with 0 and then with 1 gives a wrapper that holds a callable and
whose call throws `std::bad_function_call`. -/
theorem currying_empty_defers_witness :
    (is_invocable.closure
        ((curried_function.ctor_default : curried_function TestState Int [int, int]).curry
          (Bound.value 0)).1 :
      Closure TestState Int [int]).always_throws Exn.bad_function_call ∧
    ((((curried_function.ctor_default : curried_function TestState Int [int, int]).curry
        (Bound.value 0)).1.curry (Bound.value 1)).1.call () ⟨0, []⟩).1.1
      = Except.error Exn.bad_function_call := by
  have h1 := @currying_empty_defers TestState Int int int [int] []
    (Bound.value 0)
    ((curried_function.ctor_default : curried_function TestState Int [int, int]).curry
      (Bound.value 0)).1
    (Bound.value 1)
    (((curried_function.ctor_default : curried_function TestState Int [int, int]).curry
      (Bound.value 0)).1.curry (Bound.value 1)).1
  obtain ⟨⟨_, he⟩, _, hstep, hcall⟩ := h1
  exact ⟨he, (hcall (hstep he).1.2 () ⟨0, []⟩).1⟩

end ed
